import Mathlib

/-!
Shallow embedding of `WeatherService.analyze_extreme_conditions` from
`weather_app/mod6_labs/weather_service.py` and verification of the alert
classification spec.  Numeric dictionary values are modelled as exact
rationals, absent dictionary entries as `Option`, and the one Python
exception the function can raise (an IndexError on an empty `weather`
list) as `Except.error`.
-/

/-- One alert record, mirroring the dictionaries appended by
`analyze_extreme_conditions`: fields `type`, `severity`, `message`,
`description`, `recommendation`, `icon`, `color`, `bg_color`. -/
structure Alert where
  type : String
  severity : String
  message : String
  description : String
  recommendation : String
  icon : String
  color : String
  bg_color : String
deriving DecidableEq, Repr

/-- Round a rational to the nearest integer, ties to even, as Python float
formatting does. -/
def roundHalfEven (x : ℚ) : ℤ :=
  if x - ⌊x⌋ < 1/2 then ⌊x⌋
  else if x - ⌊x⌋ > 1/2 then ⌊x⌋ + 1
  else if ⌊x⌋ % 2 = 0 then ⌊x⌋ else ⌊x⌋ + 1

/-- Python one-decimal float formatting, as in the format spec `.1f` used by
the alert description strings, on an exact rational. -/
def fmt1 (x : ℚ) : String :=
  let n := roundHalfEven (10 * x)
  (if n < 0 then "-" else "") ++
    toString (n.natAbs / 10) ++ "." ++ toString (n.natAbs % 10)

/-- Python default formatting of the humidity value; the API supplies an
integer and the function interpolates it unchanged. -/
def fmtNum (x : ℚ) : String :=
  if x.den = 1 then toString x.num else fmt1 x

/-- The temperature if/elif chain (weather_service.py lines 84-127).
`temp` is the raw input value used for display, `temp_c` the
Celsius-normalized value used for thresholds. -/
def temperatureAlerts (temp temp_c : ℚ) (unit : String) : List Alert :=
  if temp_c ≥ 35 then
    [⟨"temperature", "high", "🌡️ Extreme Heat Warning",
      "Temperature is " ++ fmt1 temp ++ "°" ++ (if unit = "imperial" then "F" else "C"),
      "Stay hydrated, avoid direct sun, and wear lightweight clothing",
      "WARNING_AMBER", "RED_700", "RED_50"⟩]
  else if temp_c ≥ 30 then
    [⟨"temperature", "moderate", "☀️ High Temperature",
      "Temperature is " ++ fmt1 temp ++ "°" ++ (if unit = "imperial" then "F" else "C"),
      "Wear sunscreen and stay hydrated",
      "WB_SUNNY", "ORANGE_700", "ORANGE_50"⟩]
  else if temp_c ≤ -10 then
    [⟨"temperature", "high", "🥶 Extreme Cold Warning",
      "Temperature is " ++ fmt1 temp ++ "°" ++ (if unit = "imperial" then "F" else "C"),
      "Wear multiple layers, cover exposed skin, and limit outdoor time",
      "AC_UNIT", "BLUE_700", "BLUE_50"⟩]
  else if temp_c ≤ 0 then
    [⟨"temperature", "moderate", "❄️ Freezing Temperature",
      "Temperature is " ++ fmt1 temp ++ "°" ++ (if unit = "imperial" then "F" else "C"),
      "Wear warm clothing and watch for ice on roads",
      "AC_UNIT", "CYAN_700", "CYAN_50"⟩]
  else []

/-- The feels-like if/elif chain (weather_service.py lines 130-151). -/
def feelsLikeAlerts (feels_like feels_like_c : ℚ) (unit : String) : List Alert :=
  if feels_like_c ≥ 40 then
    [⟨"feels_like", "high", "🔥 Dangerous Heat Index",
      "Feels like " ++ fmt1 feels_like ++ "°" ++ (if unit = "imperial" then "F" else "C"),
      "Avoid strenuous activity, seek air conditioning, drink plenty of water",
      "LOCAL_FIRE_DEPARTMENT", "DEEP_ORANGE_700", "DEEP_ORANGE_50"⟩]
  else if feels_like_c ≤ -20 then
    [⟨"feels_like", "high", "💨 Extreme Wind Chill",
      "Feels like " ++ fmt1 feels_like ++ "°" ++ (if unit = "imperial" then "F" else "C"),
      "Limit time outdoors, cover all exposed skin, frostbite risk is high",
      "AIR", "INDIGO_700", "INDIGO_50"⟩]
  else []

/-- The humidity if/elif chain (weather_service.py lines 154-175). -/
def humidityAlerts (humidity : ℚ) : List Alert :=
  if humidity ≥ 90 then
    [⟨"humidity", "moderate", "💦 Very High Humidity",
      "Humidity is " ++ fmtNum humidity ++ "%",
      "Stay hydrated and avoid strenuous activity",
      "WATER_DROP", "TEAL_700", "TEAL_50"⟩]
  else if humidity ≤ 20 then
    [⟨"humidity", "moderate", "🏜️ Low Humidity",
      "Humidity is " ++ fmtNum humidity ++ "%",
      "Use moisturizer and stay hydrated",
      "WATER_DROP", "AMBER_700", "AMBER_50"⟩]
  else []

/-- The wind if/elif chain (weather_service.py lines 179-200).  `wind_speed`
is the raw input value used for display, `wind_mps` the m/s-normalized value
used for thresholds. -/
def windAlerts (wind_speed wind_mps : ℚ) (unit : String) : List Alert :=
  if wind_mps ≥ 20 then
    [⟨"wind", "high", "💨 High Wind Warning",
      "Wind speed is " ++ fmt1 wind_speed ++ " " ++ (if unit = "imperial" then "mph" else "m/s"),
      "Secure loose objects, avoid outdoor activities",
      "AIR", "PURPLE_700", "PURPLE_50"⟩]
  else if wind_mps ≥ 10 then
    [⟨"wind", "moderate", "🌬️ Windy Conditions",
      "Wind speed is " ++ fmt1 wind_speed ++ " " ++ (if unit = "imperial" then "mph" else "m/s"),
      "Hold onto hats and lightweight items",
      "AIR", "BLUE_GREY_700", "BLUE_GREY_50"⟩]
  else []

/-- The weather-condition if/elif chain on OpenWeatherMap condition ids
(weather_service.py lines 204-253): thunderstorm, then heavy rain with ids
500 and 501 excluded, then snow with severity split at 602, then fog. -/
def conditionAlerts (weather_id : ℤ) : List Alert :=
  if 200 ≤ weather_id ∧ weather_id < 300 then
    [⟨"storm", "high", "⛈️ Thunderstorm Alert",
      "Thunderstorm in the area",
      "Seek indoor shelter, avoid open areas and tall objects",
      "FLASH_ON", "DEEP_PURPLE_700", "DEEP_PURPLE_50"⟩]
  else if (500 ≤ weather_id ∧ weather_id < 600) ∧ weather_id ∉ ([500, 501] : List ℤ) then
    [⟨"rain", "moderate", "🌧️ Heavy Rain",
      "Heavy rainfall expected",
      "Bring an umbrella, use caution when driving",
      "BEACH_ACCESS", "BLUE_700", "BLUE_50"⟩]
  else if 600 ≤ weather_id ∧ weather_id < 700 then
    [⟨"snow", if weather_id < 602 then "moderate" else "high", "❄️ Snow Alert",
      "Snowfall expected",
      "Allow extra travel time, drive cautiously",
      "AC_UNIT", "LIGHT_BLUE_700", "LIGHT_BLUE_50"⟩]
  else if 700 ≤ weather_id ∧ weather_id < 800 then
    [⟨"fog", "moderate", "🌫️ Reduced Visibility",
      "Fog or mist reducing visibility",
      "Use low beam headlights, drive slowly",
      "FOGGY", "GREY_700", "GREY_50"⟩]
  else []

/-- The `main` sub-dictionary of a weather response; each field may be
absent. -/
structure MainObj where
  temp : Option ℚ
  feels_like : Option ℚ
  humidity : Option ℚ
deriving DecidableEq, Repr

/-- The `wind` sub-dictionary; the `speed` field may be absent. -/
structure WindObj where
  speed : Option ℚ
deriving DecidableEq, Repr

/-- One element of the `weather` list; the `id` field may be absent. -/
structure WeatherItem where
  id : Option ℤ
deriving DecidableEq, Repr

/-- The weather-data dictionary as read by `analyze_extreme_conditions`:
each of the `main`, `wind`, and `weather` entries may be absent, and
`weather`, when present, is a list of objects. -/
structure WeatherData where
  main : Option MainObj
  wind : Option WindObj
  weather : Option (List WeatherItem)
deriving DecidableEq, Repr

/-- An empty `main` sub-dictionary, the lookup default. -/
def emptyMain : MainObj := ⟨none, none, none⟩

/-- An empty `wind` sub-dictionary, the lookup default. -/
def emptyWind : WindObj := ⟨none⟩

/-- An empty `weather` list element, the lookup default. -/
def emptyItem : WeatherItem := ⟨none⟩

/-- The lookup of the temperature with two defaults, as on line 69. -/
def tempOf (d : WeatherData) : ℚ := ((d.main.getD emptyMain).temp).getD 0

/-- The lookup of the feels-like temperature, as on line 70. -/
def feelsOf (d : WeatherData) : ℚ := ((d.main.getD emptyMain).feels_like).getD 0

/-- The lookup of the humidity, as on line 71. -/
def humidityOf (d : WeatherData) : ℚ := ((d.main.getD emptyMain).humidity).getD 0

/-- The lookup of the wind speed, as on line 72. -/
def windOf (d : WeatherData) : ℚ := ((d.wind.getD emptyWind).speed).getD 0

/-- The condition-id lookup on line 73: the `weather` entry defaults to a
one-element list of an empty object and is then indexed at 0; `none` models
the IndexError Python raises when the entry is present but an empty list. -/
def weatherIdOf (d : WeatherData) : Option ℤ :=
  match d.weather.getD [emptyItem] with
  | [] => none
  | w :: _ => some (w.id.getD 800)

/-- `WeatherService.analyze_extreme_conditions` (weather_service.py lines
57-255).  Field lookups with defaults happen first; an empty `weather` list
makes the Python code raise IndexError, modelled as `Except.error`.  The
five if/elif groups then append their alerts in source order. -/
def analyze_extreme_conditions (data : WeatherData) (unit : String) :
    Except String (List Alert) :=
  let temp := tempOf data
  let feels_like := feelsOf data
  let humidity := humidityOf data
  let wind_speed := windOf data
  match weatherIdOf data with
  | none => Except.error "IndexError: list index out of range"
  | some weather_id =>
    let temp_c := if unit = "imperial" then (temp - 32) * 5 / 9 else temp
    let feels_like_c := if unit = "imperial" then (feels_like - 32) * 5 / 9 else feels_like
    let wind_mps := if unit = "metric" then wind_speed else wind_speed / 2.237
    Except.ok (temperatureAlerts temp temp_c unit ++
      feelsLikeAlerts feels_like feels_like_c unit ++
      humidityAlerts humidity ++
      windAlerts wind_speed wind_mps unit ++
      conditionAlerts weather_id)

/-- The category and severity of each alert in order. -/
def typeSev (l : List Alert) : List (String × String) :=
  l.map fun a => (a.type, a.severity)

/-- The Celsius normalization of the temperature, lines 76-81. -/
def tempC (d : WeatherData) (u : String) : ℚ :=
  if u = "imperial" then (tempOf d - 32) * 5 / 9 else tempOf d

/-- The Celsius normalization of the feels-like temperature, lines 76-81. -/
def feelsC (d : WeatherData) (u : String) : ℚ :=
  if u = "imperial" then (feelsOf d - 32) * 5 / 9 else feelsOf d

/-- The m/s normalization of the wind speed, line 178. -/
def windMps (d : WeatherData) (u : String) : ℚ :=
  if u = "metric" then windOf d else windOf d / 2.237

/-- The condition id the function uses when its lookup succeeds. -/
def widOf (d : WeatherData) : ℤ := (weatherIdOf d).getD 800

/-- Whether an alert comes from the weather-condition group. -/
def isConditionAlert (a : Alert) : Bool :=
  a.type == "storm" || a.type == "rain" || a.type == "snow" || a.type == "fog"

/-- Whether the result of a call is a normal return. -/
def isOkResult (e : Except String (List Alert)) : Bool :=
  match e with
  | Except.ok _ => true
  | Except.error _ => false

/-- An observation whose only alert-relevant field is the condition code:
all other measurements sit strictly inside the no-alert bands. -/
def obsCode (c : ℤ) : WeatherData :=
  ⟨some ⟨some 20, some 20, some 50⟩, some ⟨some 2⟩, some [⟨some c⟩]⟩

/-- An observation whose only alert-relevant field is the temperature. -/
def obsTemp (t : ℚ) : WeatherData :=
  ⟨some ⟨some t, some 20, some 50⟩, some ⟨some 2⟩, some [⟨some 800⟩]⟩

/-- A metric observation with temperature 35 and wind 20. -/
def obsMetric : WeatherData := ⟨some ⟨some 35, none, none⟩, some ⟨some 20⟩, none⟩

/-- The imperial observation equivalent to `obsMetric`: 95 F converts to
35 C and 44.74 mph converts to exactly 20 m/s. -/
def obsImperial : WeatherData := ⟨some ⟨some 95, none, none⟩, some ⟨some 44.74⟩, none⟩

/-- An observation with every measurement at a normal value. -/
def obsNormal : WeatherData :=
  ⟨some ⟨some 20, some 20, some 50⟩, some ⟨some 2⟩, some [⟨some 800⟩]⟩

/-- A metric observation alerting in four groups at once: hot, humid,
strong wind, thunderstorm; the feels-like field is absent. -/
def obsMulti : WeatherData :=
  ⟨some ⟨some 36, none, some 95⟩, some ⟨some 25⟩, some [⟨some 202⟩]⟩

/-- The five group chains of a call, concatenated in source order. -/
def groupsOf (d : WeatherData) (u : String) : List Alert :=
  temperatureAlerts (tempOf d) (tempC d u) u ++
    feelsLikeAlerts (feelsOf d) (feelsC d u) u ++
    humidityAlerts (humidityOf d) ++
    windAlerts (windOf d) (windMps d u) u ++
    conditionAlerts (widOf d)

/-- The position of an alert's group in the evaluation order. -/
def groupRank (a : Alert) : ℕ :=
  if a.type = "temperature" then 0
  else if a.type = "feels_like" then 1
  else if a.type = "humidity" then 2
  else if a.type = "wind" then 3
  else 4

/-- The alerts of a list come in strictly increasing group order. -/
def groupOrdered (l : List Alert) : Prop :=
  List.Pairwise (fun a b => groupRank a < groupRank b) l

/-- The severity of each alert in order. -/
def sevList (l : List Alert) : List String := l.map Alert.severity

/-- The record the freezing branch produces at temperature 0 in metric
units. -/
def freezingRecord : Alert :=
  ⟨"temperature", "moderate", "❄️ Freezing Temperature", "Temperature is 0.0°C",
    "Wear warm clothing and watch for ice on roads", "AC_UNIT", "CYAN_700", "CYAN_50"⟩

/-- The record the low-humidity branch produces at humidity 0. -/
def lowHumidityRecord : Alert :=
  ⟨"humidity", "moderate", "🏜️ Low Humidity", "Humidity is 0%",
    "Use moisturizer and stay hydrated", "WATER_DROP", "AMBER_700", "AMBER_50"⟩

/-- The record the extreme-heat branch produces at 95 F in imperial units. -/
def heatRecordF : Alert :=
  ⟨"temperature", "high", "🌡️ Extreme Heat Warning", "Temperature is 95.0°F",
    "Stay hydrated, avoid direct sun, and wear lightweight clothing",
    "WARNING_AMBER", "RED_700", "RED_50"⟩

/-- The record the high-wind branch produces at 44.74 mph in imperial
units. -/
def windRecordF : Alert :=
  ⟨"wind", "high", "💨 High Wind Warning", "Wind speed is 44.7 mph",
    "Secure loose objects, avoid outdoor activities", "AIR", "PURPLE_700", "PURPLE_50"⟩

/-- The record the heavy-rain branch produces. -/
def rainRecord : Alert :=
  ⟨"rain", "moderate", "🌧️ Heavy Rain", "Heavy rainfall expected",
    "Bring an umbrella, use caution when driving", "BEACH_ACCESS", "BLUE_700", "BLUE_50"⟩

theorem temperatureAlerts_mem_type (t tc : ℚ) (u : String) :
    ∀ a ∈ temperatureAlerts t tc u, a.type = "temperature" := by
  intro a ha
  unfold temperatureAlerts at ha
  repeat' split at ha
  all_goals simp_all

theorem feelsLikeAlerts_mem_type (f fc : ℚ) (u : String) :
    ∀ a ∈ feelsLikeAlerts f fc u, a.type = "feels_like" := by
  intro a ha
  unfold feelsLikeAlerts at ha
  repeat' split at ha
  all_goals simp_all

theorem humidityAlerts_mem_type (h : ℚ) :
    ∀ a ∈ humidityAlerts h, a.type = "humidity" := by
  intro a ha
  unfold humidityAlerts at ha
  repeat' split at ha
  all_goals simp_all

theorem windAlerts_mem_type (w wm : ℚ) (u : String) :
    ∀ a ∈ windAlerts w wm u, a.type = "wind" := by
  intro a ha
  unfold windAlerts at ha
  repeat' split at ha
  all_goals simp_all

theorem conditionAlerts_mem_type (i : ℤ) :
    ∀ a ∈ conditionAlerts i,
      a.type = "storm" ∨ a.type = "rain" ∨ a.type = "snow" ∨ a.type = "fog" := by
  intro a ha
  unfold conditionAlerts at ha
  repeat' split at ha
  all_goals simp_all

theorem temperatureAlerts_length (t tc : ℚ) (u : String) :
    (temperatureAlerts t tc u).length ≤ 1 := by
  unfold temperatureAlerts
  repeat' split
  all_goals simp

theorem feelsLikeAlerts_length (f fc : ℚ) (u : String) :
    (feelsLikeAlerts f fc u).length ≤ 1 := by
  unfold feelsLikeAlerts
  repeat' split
  all_goals simp

theorem humidityAlerts_length (h : ℚ) : (humidityAlerts h).length ≤ 1 := by
  unfold humidityAlerts
  repeat' split
  all_goals simp

theorem windAlerts_length (w wm : ℚ) (u : String) :
    (windAlerts w wm u).length ≤ 1 := by
  unfold windAlerts
  repeat' split
  all_goals simp

theorem conditionAlerts_length (i : ℤ) : (conditionAlerts i).length ≤ 1 := by
  unfold conditionAlerts
  repeat' split
  all_goals simp

/-- Every normal return of the analyzer is the concatenation of the five
group chains applied to the extracted and normalized field values. -/
theorem analyze_ok_eq {d : WeatherData} {u : String} {l : List Alert}
    (h : analyze_extreme_conditions d u = Except.ok l) : l = groupsOf d u := by
  unfold analyze_extreme_conditions at h
  cases hw : weatherIdOf d with
  | none =>
    simp only [hw] at h
    exact Except.noConfusion h
  | some wid =>
    simp only [hw, Except.ok.injEq] at h
    subst h
    simp [groupsOf, tempC, feelsC, windMps, widOf, hw]

/-- A list whose members all falsify `p` filters to nil. -/
theorem filter_eq_nil_of_false {p : Alert → Bool} {l : List Alert}
    (h : ∀ a ∈ l, p a = false) : l.filter p = [] :=
  List.filter_eq_nil_iff.mpr fun a ha => by simp [h a ha]

/-- A known alert type falsifies equality tests against a different
literal. -/
theorem beq_type_false {a : Alert} (s t : String) (h : a.type = s)
    (hne : (s == t) = false) : (a.type == t) = false := by
  rw [h]; exact hne

/-- A condition-group alert type falsifies equality tests against the
four measurement-group literals. -/
theorem condition_type_beq_false {a : Alert} (t : String)
    (h : a.type = "storm" ∨ a.type = "rain" ∨ a.type = "snow" ∨ a.type = "fog")
    (h1 : ("storm" == t) = false) (h2 : ("rain" == t) = false)
    (h3 : ("snow" == t) = false) (h4 : ("fog" == t) = false) :
    (a.type == t) = false := by
  rcases h with h | h | h | h <;> rw [h] <;> assumption

theorem isConditionAlert_false {a : Alert}
    (h : a.type = "temperature" ∨ a.type = "feels_like" ∨ a.type = "humidity" ∨
      a.type = "wind") :
    isConditionAlert a = false := by
  unfold isConditionAlert
  rcases h with h | h | h | h <;> rw [h] <;> rfl

theorem isConditionAlert_true {a : Alert}
    (h : a.type = "storm" ∨ a.type = "rain" ∨ a.type = "snow" ∨ a.type = "fog") :
    isConditionAlert a = true := by
  unfold isConditionAlert
  rcases h with h | h | h | h <;> rw [h] <;> rfl

/-- Lists of at most one element are vacuously pairwise ordered. -/
theorem pairwise_of_length_le_one {R : Alert → Alert → Prop} {l : List Alert}
    (h : l.length ≤ 1) : List.Pairwise R l := by
  match l with
  | [] => exact List.Pairwise.nil
  | [a] => exact List.Pairwise.cons (by simp) List.Pairwise.nil
  | a :: b :: t => simp at h

/-- Filtering a call's groups for the condition categories leaves exactly
the condition chain. -/
theorem groupsOf_filter_condition (d : WeatherData) (u : String) :
    (groupsOf d u).filter isConditionAlert = conditionAlerts (widOf d) := by
  have e1 : (temperatureAlerts (tempOf d) (tempC d u) u).filter isConditionAlert = [] :=
    filter_eq_nil_of_false fun a ha =>
      isConditionAlert_false (Or.inl (temperatureAlerts_mem_type _ _ _ a ha))
  have e2 : (feelsLikeAlerts (feelsOf d) (feelsC d u) u).filter isConditionAlert = [] :=
    filter_eq_nil_of_false fun a ha =>
      isConditionAlert_false (Or.inr (Or.inl (feelsLikeAlerts_mem_type _ _ _ a ha)))
  have e3 : (humidityAlerts (humidityOf d)).filter isConditionAlert = [] :=
    filter_eq_nil_of_false fun a ha =>
      isConditionAlert_false (Or.inr (Or.inr (Or.inl (humidityAlerts_mem_type _ a ha))))
  have e4 : (windAlerts (windOf d) (windMps d u) u).filter isConditionAlert = [] :=
    filter_eq_nil_of_false fun a ha =>
      isConditionAlert_false (Or.inr (Or.inr (Or.inr (windAlerts_mem_type _ _ _ a ha))))
  have e5 : (conditionAlerts (widOf d)).filter isConditionAlert = conditionAlerts (widOf d) :=
    List.filter_eq_self.mpr fun a ha => isConditionAlert_true (conditionAlerts_mem_type _ a ha)
  unfold groupsOf
  rw [List.filter_append, List.filter_append, List.filter_append, List.filter_append,
    e1, e2, e3, e4, e5]
  simp

theorem groupsOf_count_temperature (d : WeatherData) (u : String) :
    ((groupsOf d u).filter fun a => a.type == "temperature").length ≤ 1 := by
  have e2 : (feelsLikeAlerts (feelsOf d) (feelsC d u) u).filter
      (fun a => a.type == "temperature") = [] :=
    filter_eq_nil_of_false fun a ha =>
      beq_type_false _ _ (feelsLikeAlerts_mem_type _ _ _ a ha) rfl
  have e3 : (humidityAlerts (humidityOf d)).filter
      (fun a => a.type == "temperature") = [] :=
    filter_eq_nil_of_false fun a ha =>
      beq_type_false _ _ (humidityAlerts_mem_type _ a ha) rfl
  have e4 : (windAlerts (windOf d) (windMps d u) u).filter
      (fun a => a.type == "temperature") = [] :=
    filter_eq_nil_of_false fun a ha =>
      beq_type_false _ _ (windAlerts_mem_type _ _ _ a ha) rfl
  have e5 : (conditionAlerts (widOf d)).filter
      (fun a => a.type == "temperature") = [] :=
    filter_eq_nil_of_false fun a ha =>
      condition_type_beq_false _ (conditionAlerts_mem_type _ a ha) rfl rfl rfl rfl
  unfold groupsOf
  rw [List.filter_append, List.filter_append, List.filter_append, List.filter_append,
    e2, e3, e4, e5]
  simp only [List.append_nil]
  exact le_trans (List.length_filter_le _ _) (temperatureAlerts_length _ _ _)

theorem groupsOf_count_feels_like (d : WeatherData) (u : String) :
    ((groupsOf d u).filter fun a => a.type == "feels_like").length ≤ 1 := by
  have e1 : (temperatureAlerts (tempOf d) (tempC d u) u).filter
      (fun a => a.type == "feels_like") = [] :=
    filter_eq_nil_of_false fun a ha =>
      beq_type_false _ _ (temperatureAlerts_mem_type _ _ _ a ha) rfl
  have e3 : (humidityAlerts (humidityOf d)).filter
      (fun a => a.type == "feels_like") = [] :=
    filter_eq_nil_of_false fun a ha =>
      beq_type_false _ _ (humidityAlerts_mem_type _ a ha) rfl
  have e4 : (windAlerts (windOf d) (windMps d u) u).filter
      (fun a => a.type == "feels_like") = [] :=
    filter_eq_nil_of_false fun a ha =>
      beq_type_false _ _ (windAlerts_mem_type _ _ _ a ha) rfl
  have e5 : (conditionAlerts (widOf d)).filter
      (fun a => a.type == "feels_like") = [] :=
    filter_eq_nil_of_false fun a ha =>
      condition_type_beq_false _ (conditionAlerts_mem_type _ a ha) rfl rfl rfl rfl
  unfold groupsOf
  rw [List.filter_append, List.filter_append, List.filter_append, List.filter_append,
    e1, e3, e4, e5]
  simp only [List.append_nil, List.nil_append]
  exact le_trans (List.length_filter_le _ _) (feelsLikeAlerts_length _ _ _)

theorem groupsOf_count_humidity (d : WeatherData) (u : String) :
    ((groupsOf d u).filter fun a => a.type == "humidity").length ≤ 1 := by
  have e1 : (temperatureAlerts (tempOf d) (tempC d u) u).filter
      (fun a => a.type == "humidity") = [] :=
    filter_eq_nil_of_false fun a ha =>
      beq_type_false _ _ (temperatureAlerts_mem_type _ _ _ a ha) rfl
  have e2 : (feelsLikeAlerts (feelsOf d) (feelsC d u) u).filter
      (fun a => a.type == "humidity") = [] :=
    filter_eq_nil_of_false fun a ha =>
      beq_type_false _ _ (feelsLikeAlerts_mem_type _ _ _ a ha) rfl
  have e4 : (windAlerts (windOf d) (windMps d u) u).filter
      (fun a => a.type == "humidity") = [] :=
    filter_eq_nil_of_false fun a ha =>
      beq_type_false _ _ (windAlerts_mem_type _ _ _ a ha) rfl
  have e5 : (conditionAlerts (widOf d)).filter
      (fun a => a.type == "humidity") = [] :=
    filter_eq_nil_of_false fun a ha =>
      condition_type_beq_false _ (conditionAlerts_mem_type _ a ha) rfl rfl rfl rfl
  unfold groupsOf
  rw [List.filter_append, List.filter_append, List.filter_append, List.filter_append,
    e1, e2, e4, e5]
  simp only [List.append_nil, List.nil_append]
  exact le_trans (List.length_filter_le _ _) (humidityAlerts_length _)

theorem groupsOf_count_wind (d : WeatherData) (u : String) :
    ((groupsOf d u).filter fun a => a.type == "wind").length ≤ 1 := by
  have e1 : (temperatureAlerts (tempOf d) (tempC d u) u).filter
      (fun a => a.type == "wind") = [] :=
    filter_eq_nil_of_false fun a ha =>
      beq_type_false _ _ (temperatureAlerts_mem_type _ _ _ a ha) rfl
  have e2 : (feelsLikeAlerts (feelsOf d) (feelsC d u) u).filter
      (fun a => a.type == "wind") = [] :=
    filter_eq_nil_of_false fun a ha =>
      beq_type_false _ _ (feelsLikeAlerts_mem_type _ _ _ a ha) rfl
  have e3 : (humidityAlerts (humidityOf d)).filter
      (fun a => a.type == "wind") = [] :=
    filter_eq_nil_of_false fun a ha =>
      beq_type_false _ _ (humidityAlerts_mem_type _ a ha) rfl
  have e5 : (conditionAlerts (widOf d)).filter
      (fun a => a.type == "wind") = [] :=
    filter_eq_nil_of_false fun a ha =>
      condition_type_beq_false _ (conditionAlerts_mem_type _ a ha) rfl rfl rfl rfl
  unfold groupsOf
  rw [List.filter_append, List.filter_append, List.filter_append, List.filter_append,
    e1, e2, e3, e5]
  simp only [List.append_nil, List.nil_append]
  exact le_trans (List.length_filter_le _ _) (windAlerts_length _ _ _)

theorem groupsOf_length (d : WeatherData) (u : String) : (groupsOf d u).length ≤ 5 := by
  have h1 := temperatureAlerts_length (tempOf d) (tempC d u) u
  have h2 := feelsLikeAlerts_length (feelsOf d) (feelsC d u) u
  have h3 := humidityAlerts_length (humidityOf d)
  have h4 := windAlerts_length (windOf d) (windMps d u) u
  have h5 := conditionAlerts_length (widOf d)
  unfold groupsOf
  simp only [List.length_append]
  omega

theorem temperatureAlerts_mem_description (t tc : ℚ) (u : String) :
    ∀ a ∈ temperatureAlerts t tc u,
      a.description =
        "Temperature is " ++ fmt1 t ++ "°" ++ (if u = "imperial" then "F" else "C") := by
  intro a ha
  unfold temperatureAlerts at ha
  repeat' split at ha
  all_goals simp_all

theorem feelsLikeAlerts_mem_description (f fc : ℚ) (u : String) :
    ∀ a ∈ feelsLikeAlerts f fc u,
      a.description =
        "Feels like " ++ fmt1 f ++ "°" ++ (if u = "imperial" then "F" else "C") := by
  intro a ha
  unfold feelsLikeAlerts at ha
  repeat' split at ha
  all_goals simp_all

theorem windAlerts_mem_description (w wm : ℚ) (u : String) :
    ∀ a ∈ windAlerts w wm u,
      a.description =
        "Wind speed is " ++ fmt1 w ++ " " ++ (if u = "imperial" then "mph" else "m/s") := by
  intro a ha
  unfold windAlerts at ha
  repeat' split at ha
  all_goals simp_all

/-- The concatenation of the five group chains is strictly ordered by
group rank. -/
theorem groupsOf_ordered (d : WeatherData) (u : String) : groupOrdered (groupsOf d u) := by
  have r1 : ∀ a ∈ temperatureAlerts (tempOf d) (tempC d u) u, groupRank a = 0 :=
    fun a ha => by simp [groupRank, temperatureAlerts_mem_type _ _ _ a ha]
  have r2 : ∀ a ∈ feelsLikeAlerts (feelsOf d) (feelsC d u) u, groupRank a = 1 :=
    fun a ha => by simp [groupRank, feelsLikeAlerts_mem_type _ _ _ a ha]
  have r3 : ∀ a ∈ humidityAlerts (humidityOf d), groupRank a = 2 :=
    fun a ha => by simp [groupRank, humidityAlerts_mem_type _ a ha]
  have r4 : ∀ a ∈ windAlerts (windOf d) (windMps d u) u, groupRank a = 3 :=
    fun a ha => by simp [groupRank, windAlerts_mem_type _ _ _ a ha]
  have r5 : ∀ a ∈ conditionAlerts (widOf d), groupRank a = 4 := by
    intro a ha
    rcases conditionAlerts_mem_type _ a ha with h | h | h | h <;> simp [groupRank, h]
  have m2 : ∀ a ∈ temperatureAlerts (tempOf d) (tempC d u) u ++
      feelsLikeAlerts (feelsOf d) (feelsC d u) u, groupRank a ≤ 1 := by
    intro a ha
    rcases List.mem_append.mp ha with ha | ha
    · rw [r1 a ha]; omega
    · rw [r2 a ha]
  have m3 : ∀ a ∈ temperatureAlerts (tempOf d) (tempC d u) u ++
      feelsLikeAlerts (feelsOf d) (feelsC d u) u ++ humidityAlerts (humidityOf d),
      groupRank a ≤ 2 := by
    intro a ha
    rcases List.mem_append.mp ha with ha | ha
    · have := m2 a ha; omega
    · rw [r3 a ha]
  have m4 : ∀ a ∈ temperatureAlerts (tempOf d) (tempC d u) u ++
      feelsLikeAlerts (feelsOf d) (feelsC d u) u ++ humidityAlerts (humidityOf d) ++
      windAlerts (windOf d) (windMps d u) u, groupRank a ≤ 3 := by
    intro a ha
    rcases List.mem_append.mp ha with ha | ha
    · have := m3 a ha; omega
    · rw [r4 a ha]
  unfold groupOrdered groupsOf
  refine List.pairwise_append.mpr
    ⟨List.pairwise_append.mpr
      ⟨List.pairwise_append.mpr
        ⟨List.pairwise_append.mpr
          ⟨pairwise_of_length_le_one (temperatureAlerts_length _ _ _),
            pairwise_of_length_le_one (feelsLikeAlerts_length _ _ _), ?_⟩,
          pairwise_of_length_le_one (humidityAlerts_length _), ?_⟩,
        pairwise_of_length_le_one (windAlerts_length _ _ _), ?_⟩,
      pairwise_of_length_le_one (conditionAlerts_length _), ?_⟩
  · intro a ha b hb
    show groupRank a < groupRank b
    rw [r1 a ha, r2 b hb]
    omega
  · intro a ha b hb
    show groupRank a < groupRank b
    rw [r3 b hb]
    have := m2 a ha
    omega
  · intro a ha b hb
    show groupRank a < groupRank b
    rw [r4 b hb]
    have := m3 a ha
    omega
  · intro a ha b hb
    show groupRank a < groupRank b
    rw [r5 b hb]
    have := m4 a ha
    omega

theorem metric_ne_imperial : (("metric" : String) = "imperial") = False :=
  eq_false (by decide)

theorem imperial_ne_metric : (("imperial" : String) = "metric") = False :=
  eq_false (by decide)

theorem imperial_eq_imperial : (("imperial" : String) = "imperial") = True :=
  eq_true rfl

theorem toString_nat_zero : toString (0 : ℕ) = "0" := rfl

theorem toString_nat_seven : toString (7 : ℕ) = "7" := rfl

theorem toString_nat_fortyfour : toString (44 : ℕ) = "44" := rfl

theorem toString_nat_ninetyfive : toString (95 : ℕ) = "95" := rfl

theorem toString_int_zero : toString (0 : ℤ) = "0" := rfl

/-- C1 (code bug): the analyzer is meant to be total, reading absent
numeric fields as 0 and an absent condition code as 800, but a
present-and-empty `weather` list makes the Python code raise IndexError:
the first conjunct evaluates that failing input, the second proves the
function returns a list on every other shape of input, and the third
proves the empty dictionary behaves exactly like the dictionary populated
with the default values 0 and 800. -/
theorem analyze_total_with_defaults :
    analyze_extreme_conditions ⟨none, none, some []⟩ "metric" =
      Except.error "IndexError: list index out of range" ∧
    (∀ (d : WeatherData) (u : String), d.weather ≠ some [] →
      ∃ l, analyze_extreme_conditions d u = Except.ok l) ∧
    (∀ u : String,
      analyze_extreme_conditions ⟨none, none, none⟩ u =
        analyze_extreme_conditions
          ⟨some ⟨some 0, some 0, some 0⟩, some ⟨some 0⟩, some [⟨some 800⟩]⟩ u) := by
  refine ⟨rfl, ?_, fun u => rfl⟩
  intro d u hne
  have hwid : ∃ wid, weatherIdOf d = some wid := by
    unfold weatherIdOf
    cases hw : d.weather with
    | none => exact ⟨800, rfl⟩
    | some ws =>
      cases ws with
      | nil => exact absurd hw hne
      | cons w t => exact ⟨w.id.getD 800, rfl⟩
  obtain ⟨wid, hw⟩ := hwid
  unfold analyze_extreme_conditions
  rw [hw]
  exact ⟨_, rfl⟩

/-- Witness for C1: the totality conjunct applied to the empty
dictionary. -/
theorem analyze_total_with_defaults_witness :
    isOkResult (analyze_extreme_conditions ⟨none, none, none⟩ "metric") = true := by
  obtain ⟨l, hl⟩ :=
    analyze_total_with_defaults.2.1 ⟨none, none, none⟩ "metric" (by decide)
  rw [hl]
  rfl

/-- C2: the metric observation with temperature 35 and wind 20 and the
imperial observation with the exactly equivalent values 95 F and 44.74 mph
produce alert lists with identical category/severity sequences. -/
theorem unit_equivalence_metric_imperial :
    Except.map typeSev (analyze_extreme_conditions obsMetric "metric") =
      Except.map typeSev (analyze_extreme_conditions obsImperial "imperial") := by
  norm_num [analyze_extreme_conditions, weatherIdOf, tempOf, feelsOf, humidityOf, windOf,
    emptyMain, emptyWind, emptyItem, temperatureAlerts, feelsLikeAlerts,
    humidityAlerts, windAlerts, conditionAlerts, typeSev, sevList, fmt1, fmtNum,
    roundHalfEven, obsMetric, obsImperial, obsTemp, obsNormal, obsMulti, obsCode,
    freezingRecord, lowHumidityRecord, heatRecordF, windRecordF, rainRecord,
    toString_nat_zero, toString_nat_seven, toString_nat_fortyfour,
    toString_nat_ninetyfive, toString_int_zero,
    metric_ne_imperial, imperial_ne_metric, imperial_eq_imperial, Except.map]

/-- C3: with all other fields non-alerting, condition code 501 yields no
rain record, 502 exactly one moderate rain record, 602 a high snow record,
601 a moderate snow record; and on every call the condition group of the
output is exactly the first matching band of the storm/rain/snow/fog
chain, hence at most one record. -/
theorem condition_code_bands :
    Except.map typeSev (analyze_extreme_conditions (obsCode 501) "metric") =
      Except.ok [] ∧
    Except.map typeSev (analyze_extreme_conditions (obsCode 502) "metric") =
      Except.ok [("rain", "moderate")] ∧
    Except.map typeSev (analyze_extreme_conditions (obsCode 602) "metric") =
      Except.ok [("snow", "high")] ∧
    Except.map typeSev (analyze_extreme_conditions (obsCode 601) "metric") =
      Except.ok [("snow", "moderate")] ∧
    ∀ (d : WeatherData) (u : String) (l : List Alert),
      analyze_extreme_conditions d u = Except.ok l →
        l.filter isConditionAlert = conditionAlerts (widOf d) ∧
        (l.filter isConditionAlert).length ≤ 1 := by
  refine ⟨rfl, rfl, rfl, rfl, ?_⟩
  intro d u l h
  rw [analyze_ok_eq h, groupsOf_filter_condition]
  exact ⟨rfl, conditionAlerts_length _⟩

/-- Witness for C3 at condition code 502. -/
theorem condition_code_bands_witness :
    [rainRecord].filter isConditionAlert = conditionAlerts (widOf (obsCode 502)) ∧
    ([rainRecord].filter isConditionAlert).length ≤ 1 :=
  condition_code_bands.2.2.2.2 (obsCode 502) "metric" [rainRecord] (by rfl)

/-- C4: metric temperature boundaries with all other fields non-alerting:
35.0 gives exactly one high temperature record, 34.9 and 30.0 give exactly
one moderate record, 29.9 gives no record at all. -/
theorem temperature_boundaries :
    Except.map typeSev (analyze_extreme_conditions (obsTemp 35) "metric") =
      Except.ok [("temperature", "high")] ∧
    Except.map typeSev (analyze_extreme_conditions (obsTemp 34.9) "metric") =
      Except.ok [("temperature", "moderate")] ∧
    Except.map typeSev (analyze_extreme_conditions (obsTemp 30) "metric") =
      Except.ok [("temperature", "moderate")] ∧
    Except.map typeSev (analyze_extreme_conditions (obsTemp 29.9) "metric") =
      Except.ok [] := by
  refine ⟨?_, ?_, ?_, ?_⟩ <;>
    norm_num [analyze_extreme_conditions, weatherIdOf, tempOf, feelsOf, humidityOf, windOf,
    emptyMain, emptyWind, emptyItem, temperatureAlerts, feelsLikeAlerts,
    humidityAlerts, windAlerts, conditionAlerts, typeSev, sevList, fmt1, fmtNum,
    roundHalfEven, obsMetric, obsImperial, obsTemp, obsNormal, obsMulti, obsCode,
    freezingRecord, lowHumidityRecord, heatRecordF, windRecordF, rainRecord,
    toString_nat_zero, toString_nat_seven, toString_nat_fortyfour,
    toString_nat_ninetyfive, toString_int_zero,
    metric_ne_imperial, imperial_ne_metric, imperial_eq_imperial, Except.map]

/-- C5: an observation with every measurement at a normal value produces
the empty alert list. -/
theorem normal_observation_no_alerts :
    analyze_extreme_conditions obsNormal "metric" = Except.ok [] := rfl

/-- C6: a metric observation with temperature 36, humidity 95, wind 25 and
condition code 202 produces exactly four records, one per group, with
severities high, moderate, high, high. -/
theorem independent_groups_cofire :
    Except.map typeSev (analyze_extreme_conditions obsMulti "metric") =
      Except.ok [("temperature", "high"), ("humidity", "moderate"),
        ("wind", "high"), ("storm", "high")] := rfl

/-- C7: every call emits at most one record per category group, so the
returned list has at most five records. -/
theorem at_most_one_alert_per_group :
    ∀ (d : WeatherData) (u : String) (l : List Alert),
      analyze_extreme_conditions d u = Except.ok l →
        (l.filter fun a => a.type == "temperature").length ≤ 1 ∧
        (l.filter fun a => a.type == "feels_like").length ≤ 1 ∧
        (l.filter fun a => a.type == "humidity").length ≤ 1 ∧
        (l.filter fun a => a.type == "wind").length ≤ 1 ∧
        (l.filter isConditionAlert).length ≤ 1 ∧
        l.length ≤ 5 := by
  intro d u l h
  rw [analyze_ok_eq h]
  refine ⟨groupsOf_count_temperature d u, groupsOf_count_feels_like d u,
    groupsOf_count_humidity d u, groupsOf_count_wind d u, ?_, groupsOf_length d u⟩
  rw [groupsOf_filter_condition]
  exact conditionAlerts_length _

/-- Witness for C7 at condition code 502. -/
theorem at_most_one_alert_per_group_witness :
    ([rainRecord].filter fun a => a.type == "temperature").length ≤ 1 ∧
    ([rainRecord].filter fun a => a.type == "feels_like").length ≤ 1 ∧
    ([rainRecord].filter fun a => a.type == "humidity").length ≤ 1 ∧
    ([rainRecord].filter fun a => a.type == "wind").length ≤ 1 ∧
    ([rainRecord].filter isConditionAlert).length ≤ 1 ∧
    ([rainRecord] : List Alert).length ≤ 5 :=
  at_most_one_alert_per_group (obsCode 502) "metric" [rainRecord] (by rfl)

/-- C8: the records of every call appear in the fixed evaluation order
temperature, feels-like, humidity, wind, condition (strictly increasing
group rank), and the classifier does not sort by severity: the four-group
observation returns severities high, moderate, high, high in evaluation
order rather than in severity order. -/
theorem alerts_in_evaluation_order :
    (∀ (d : WeatherData) (u : String) (l : List Alert),
      analyze_extreme_conditions d u = Except.ok l → groupOrdered l) ∧
    Except.map sevList (analyze_extreme_conditions obsMulti "metric") =
      Except.ok ["high", "moderate", "high", "high"] := by
  refine ⟨?_, rfl⟩
  intro d u l h
  rw [analyze_ok_eq h]
  exact groupsOf_ordered d u

/-- Witness for C8 at the empty dictionary. -/
theorem alerts_in_evaluation_order_witness :
    groupOrdered [freezingRecord, lowHumidityRecord] :=
  alerts_in_evaluation_order.1 ⟨none, none, none⟩ "metric"
    [freezingRecord, lowHumidityRecord]
    (by norm_num [analyze_extreme_conditions, weatherIdOf, tempOf, feelsOf, humidityOf, windOf,
    emptyMain, emptyWind, emptyItem, temperatureAlerts, feelsLikeAlerts,
    humidityAlerts, windAlerts, conditionAlerts, typeSev, sevList, fmt1, fmtNum,
    roundHalfEven, obsMetric, obsImperial, obsTemp, obsNormal, obsMulti, obsCode,
    freezingRecord, lowHumidityRecord, heatRecordF, windRecordF, rainRecord,
    toString_nat_zero, toString_nat_seven, toString_nat_fortyfour,
    toString_nat_ninetyfive, toString_int_zero,
    metric_ne_imperial, imperial_ne_metric, imperial_eq_imperial, Except.map]
        all_goals repeat' apply And.intro
        all_goals rfl)

/-- C9: in every record of every call, the temperature, feels-like, and
wind descriptions are built from the original un-normalized input value
and the caller's unit symbol (F and mph when imperial, C and m/s
otherwise), never from the normalized comparison value. -/
theorem description_uses_original_value :
    ∀ (d : WeatherData) (u : String) (l : List Alert),
      analyze_extreme_conditions d u = Except.ok l →
      ∀ a ∈ l,
        (a.type = "temperature" →
          a.description = "Temperature is " ++ fmt1 (tempOf d) ++ "°" ++
            (if u = "imperial" then "F" else "C")) ∧
        (a.type = "feels_like" →
          a.description = "Feels like " ++ fmt1 (feelsOf d) ++ "°" ++
            (if u = "imperial" then "F" else "C")) ∧
        (a.type = "wind" →
          a.description = "Wind speed is " ++ fmt1 (windOf d) ++ " " ++
            (if u = "imperial" then "mph" else "m/s")) := by
  intro d u l h a ha
  rw [analyze_ok_eq h] at ha
  unfold groupsOf at ha
  rcases List.mem_append.mp ha with ha | ha
  · rcases List.mem_append.mp ha with ha | ha
    · rcases List.mem_append.mp ha with ha | ha
      · rcases List.mem_append.mp ha with ha | ha
        · have ht := temperatureAlerts_mem_type _ _ _ a ha
          refine ⟨fun _ => temperatureAlerts_mem_description _ _ _ a ha,
            fun hh => ?_, fun hh => ?_⟩
          · rw [ht] at hh; exact absurd hh (by decide)
          · rw [ht] at hh; exact absurd hh (by decide)
        · have ht := feelsLikeAlerts_mem_type _ _ _ a ha
          refine ⟨fun hh => ?_,
            fun _ => feelsLikeAlerts_mem_description _ _ _ a ha, fun hh => ?_⟩
          · rw [ht] at hh; exact absurd hh (by decide)
          · rw [ht] at hh; exact absurd hh (by decide)
      · have ht := humidityAlerts_mem_type _ a ha
        refine ⟨fun hh => ?_, fun hh => ?_, fun hh => ?_⟩ <;>
          (rw [ht] at hh; exact absurd hh (by decide))
    · have ht := windAlerts_mem_type _ _ _ a ha
      refine ⟨fun hh => ?_, fun hh => ?_,
        fun _ => windAlerts_mem_description _ _ _ a ha⟩
      · rw [ht] at hh; exact absurd hh (by decide)
      · rw [ht] at hh; exact absurd hh (by decide)
  · have ht := conditionAlerts_mem_type _ a ha
    refine ⟨fun hh => ?_, fun hh => ?_, fun hh => ?_⟩ <;>
      (rcases ht with h4 | h4 | h4 | h4 <;> (rw [h4] at hh; exact absurd hh (by decide)))

/-- Witness for C9: the heat record of the imperial observation carries
the original Fahrenheit value in its description. -/
theorem description_uses_original_value_witness :
    (heatRecordF.type = "temperature" →
      heatRecordF.description = "Temperature is " ++ fmt1 (tempOf obsImperial) ++ "°" ++
        (if "imperial" = "imperial" then "F" else "C")) ∧
    (heatRecordF.type = "feels_like" →
      heatRecordF.description = "Feels like " ++ fmt1 (feelsOf obsImperial) ++ "°" ++
        (if "imperial" = "imperial" then "F" else "C")) ∧
    (heatRecordF.type = "wind" →
      heatRecordF.description = "Wind speed is " ++ fmt1 (windOf obsImperial) ++ " " ++
        (if "imperial" = "imperial" then "mph" else "m/s")) :=
  description_uses_original_value obsImperial "imperial"
    [heatRecordF, lowHumidityRecord, windRecordF]
    (by norm_num [analyze_extreme_conditions, weatherIdOf, tempOf, feelsOf, humidityOf, windOf,
    emptyMain, emptyWind, emptyItem, temperatureAlerts, feelsLikeAlerts,
    humidityAlerts, windAlerts, conditionAlerts, typeSev, sevList, fmt1, fmtNum,
    roundHalfEven, obsMetric, obsImperial, obsTemp, obsNormal, obsMulti, obsCode,
    freezingRecord, lowHumidityRecord, heatRecordF, windRecordF, rainRecord,
    toString_nat_zero, toString_nat_seven, toString_nat_fortyfour,
    toString_nat_ninetyfive, toString_int_zero,
    metric_ne_imperial, imperial_ne_metric, imperial_eq_imperial, Except.map]
        all_goals repeat' apply And.intro
        all_goals rfl)
    heatRecordF (List.Mem.head _)

/-- C10: the empty observation dictionary under metric units does not
yield an empty list: the zero defaults produce exactly a moderate freezing
temperature record followed by a moderate low-humidity record. -/
theorem empty_observation_two_alerts :
    analyze_extreme_conditions ⟨none, none, none⟩ "metric" =
      Except.ok [freezingRecord, lowHumidityRecord] := by
  norm_num [analyze_extreme_conditions, weatherIdOf, tempOf, feelsOf, humidityOf, windOf,
    emptyMain, emptyWind, emptyItem, temperatureAlerts, feelsLikeAlerts,
    humidityAlerts, windAlerts, conditionAlerts, typeSev, sevList, fmt1, fmtNum,
    roundHalfEven, obsMetric, obsImperial, obsTemp, obsNormal, obsMulti, obsCode,
    freezingRecord, lowHumidityRecord, heatRecordF, windRecordF, rainRecord,
    toString_nat_zero, toString_nat_seven, toString_nat_fortyfour,
    toString_nat_ninetyfive, toString_int_zero,
    metric_ne_imperial, imperial_ne_metric, imperial_eq_imperial, Except.map]
  all_goals repeat' apply And.intro
  all_goals rfl
